import Mathlib

/-!
Verification of the process-supervision and monitoring core of `adbcam.py`.

The Python source is shallowly embedded: the line classifier of
`monitor_process_output.read_stream` becomes a pure function over a list of
stream events, `cleanup()` becomes an explicit state transition emitting the
external actions it performs, `check_adb_devices` and `select_camera` become
pure functions over the captured text / an input oracle, and `main`'s exit
paths become a function from an environment of setup outcomes to an exit code.
Python string primitives (`str.strip`, `in`, `str.split`, `str.startswith`,
`int(...)`) are reimplemented character by character so that every definition
evaluates inside the kernel.
-/

namespace Adbcam

/-! ## Python string primitives -/

/-- Whitespace characters removed by Python `str.strip()` (ASCII subset). -/
def isPySpace (c : Char) : Bool :=
  c == ' ' || c == '\t' || c == '\n' || c == '\r' ||
  c == Char.ofNat 11 || c == Char.ofNat 12

/-- Python `s.strip()`: drop leading and trailing whitespace. -/
def pyStrip (s : String) : String :=
  String.mk (((s.data.dropWhile isPySpace).reverse.dropWhile isPySpace).reverse)

/-- Whether `pat` is a leading segment of `l`. -/
def startsWithList : List Char → List Char → Bool
  | [], _ => true
  | _ :: _, [] => false
  | p :: ps, c :: cs => p == c && startsWithList ps cs

/-- Whether `pat` occurs contiguously inside `l`. -/
def containsList : List Char → List Char → Bool
  | l, pat =>
    match l with
    | [] => startsWithList pat []
    | _ :: rest => startsWithList pat l || containsList rest pat

/-- Python `pat in s` (substring containment). -/
def containsStr (s pat : String) : Bool :=
  containsList s.data pat.data

/-- Python `s.startswith(pre)`. -/
def pyStartsWith (s pre : String) : Bool :=
  startsWithList pre.data s.data

/-- Split a character list at every occurrence of `sep`, keeping empty parts,
as Python `str.split(sep)` does. -/
def splitChAux (sep : Char) : List Char → List Char → List (List Char)
  | [], acc => [acc.reverse]
  | c :: cs, acc =>
    if c == sep then acc.reverse :: splitChAux sep cs []
    else splitChAux sep cs (c :: acc)

/-- Python `s.split(sep)` for a one-character separator. -/
def pySplit (s : String) (sep : Char) : List String :=
  (splitChAux sep s.data []).map String.mk

/-- Parse a run of decimal digits. -/
def digitsToNatAux : List Char → Nat → Option Nat
  | [], acc => some acc
  | c :: cs, acc =>
    if c.isDigit then digitsToNatAux cs (acc * 10 + (c.toNat - 48)) else none

/-- Parse a nonempty run of decimal digits. -/
def digitsToNat : List Char → Option Nat
  | [] => none
  | ds => digitsToNatAux ds 0

/-- Python `int(s)`: optional sign, decimal digits, surrounding whitespace
tolerated; `none` models `ValueError`. -/
def pyToInt (s : String) : Option Int :=
  match (pyStrip s).data with
  | '-' :: ds => (digitsToNat ds).map (fun n => -(n : Int))
  | '+' :: ds => (digitsToNat ds).map (fun n => (n : Int))
  | ds => (digitsToNat ds).map (fun n => (n : Int))

/-- Python `max(l)` on a list of integers; `none` models the error on `[]`. -/
def pyMax : List Int → Option Int
  | [] => none
  | x :: xs => some (xs.foldl max x)

/-! ## Stream monitoring (`monitor_process_output.read_stream`) -/

/-- Classification category of one diagnostic line. -/
inductive Category where
  | disconnect
  | fatalError
  | warning
  | info
deriving DecidableEq, Repr

/-- One event observed while reading a process output stream: a text line, or
an exception raised by the read itself. -/
inductive StreamEvent where
  | line (s : String)
  | ioError (msg : String)
deriving DecidableEq, Repr

/-- Result of running one stream monitor to completion: the lines it printed,
the (stripped nonempty) lines it classified in order, and whether it called
`device_disconnected.set()`. -/
structure MonitorResult where
  output : List String
  classified : List (String × Category)
  disconnected : Bool
deriving DecidableEq, Repr

/-- Keywords treated as fatal errors by `read_stream`. -/
def fatalKeywords : List String :=
  ["ERROR:", "FATAL:", "Failed", "Error", "Cannot"]

/-- Whether a stripped line contains any fatal-error keyword. -/
def hasFatalKeyword (ls : String) : Bool :=
  fatalKeywords.any (fun k => containsStr ls k)

/-- The disconnection pattern of `read_stream`: a device-link-lost warning, or
the no-device-reachable marker. -/
def isDisconnectLine (ls : String) : Bool :=
  (containsStr ls "Device disconnected" && containsStr ls "WARN:") ||
  containsStr ls "Could not find any ADB device"

/-- The warning pattern of `read_stream` (a `WARN:` line that is not a device
disconnection). -/
def isWarningLine (ls : String) : Bool :=
  containsStr ls "WARN:" && !containsStr ls "Device disconnected"

/-- Embedding of `monitor_process_output.read_stream`: consume the stream
events in order, classify each stripped nonempty line exactly as the source
does, print the corresponding diagnostics, and stop on a disconnection match
or on an exception. -/
def readStream (processName streamName : String) : List StreamEvent → MonitorResult
  | [] => { output := [], classified := [], disconnected := false }
  | StreamEvent.ioError e :: _ =>
    { output := ["[!] Error monitoring " ++ processName ++ " " ++ streamName ++ ": " ++ e],
      classified := [], disconnected := false }
  | StreamEvent.line l :: rest =>
    let ls := pyStrip l
    if ls = "" then readStream processName streamName rest
    else if containsStr ls "Device disconnected" && containsStr ls "WARN:" then
      { output := ["[!] " ++ processName ++ ": Device disconnected detected!"],
        classified := [(ls, Category.disconnect)], disconnected := true }
    else if containsStr ls "Could not find any ADB device" then
      { output := ["[!] " ++ processName ++ ": No ADB device found!"],
        classified := [(ls, Category.disconnect)], disconnected := true }
    else if hasFatalKeyword ls then
      let r := readStream processName streamName rest
      { output := ("[!] " ++ processName ++ " (" ++ streamName ++ "): " ++ ls) :: r.output,
        classified := (ls, Category.fatalError) :: r.classified,
        disconnected := r.disconnected }
    else if containsStr ls "WARN:" && !containsStr ls "Device disconnected" then
      let r := readStream processName streamName rest
      { output := ("[W] " ++ processName ++ " (" ++ streamName ++ "): " ++ ls) :: r.output,
        classified := (ls, Category.warning) :: r.classified,
        disconnected := r.disconnected }
    else
      let r := readStream processName streamName rest
      { output := r.output,
        classified := (ls, Category.info) :: r.classified,
        disconnected := r.disconnected }

/-! ## Cleanup (`cleanup`, `signal_handler`) -/

/-- A tracked child process (an entry of `scrcpy_processes`), abstracted to
its pid and whether it exits within the two-second grace period after a
graceful termination request (an already-exited process trivially does). -/
structure Proc where
  pid : Nat
  exitsWithinGrace : Bool
deriving DecidableEq, Repr

/-- External side effects that `cleanup()` can perform. -/
inductive Action where
  | unloadModule (id : String)
  | removePipe
  | pkillScrcpy
  | terminate (p : Proc)
  | kill (p : Proc)
deriving DecidableEq, Repr

/-- Whether an action is a force-kill request. -/
def isKillAction : Action → Bool
  | Action.kill _ => true
  | _ => false

/-- Failure oracle for the fallible cleanup steps: which of the three
externally fallible commands raise when attempted. -/
structure CleanupEnv where
  unloadFails : Bool
  removeFails : Bool
  pkillFails : Bool
deriving DecidableEq, Repr

/-- The module-level mutable state that `cleanup()` reads and writes:
`MODULE_ID`, whether `PIPE_PATH` exists, and `scrcpy_processes`. -/
structure CleanupState where
  module_id : Option String
  pipe_exists : Bool
  tracked : List Proc
deriving DecidableEq, Repr

/-- One run of `cleanup()`: the state it leaves, the external actions it
performed, and the lines it printed. -/
structure CleanupResult where
  state : CleanupState
  actions : List Action
  log : List String
deriving DecidableEq, Repr

/-- The tracked-process termination step of `cleanup()`: for each process,
`terminate()` then `wait(timeout=2)`, and `kill()` if the wait times out. -/
def terminateTracked : List Proc → List Action
  | [] => []
  | p :: ps =>
    if p.exitsWithinGrace then Action.terminate p :: terminateTracked ps
    else Action.terminate p :: Action.kill p :: terminateTracked ps

/-- Embedding of `cleanup()`: unload the PulseAudio module if one was
recorded, remove the pipe if it exists, `pkill -f scrcpy`, then terminate
every tracked process; each fallible step catches its own failure and logs
it.  Note that the source neither clears `MODULE_ID` nor empties
`scrcpy_processes`, and has no already-ran guard.  The initial loop that
flips the daemon flag of monitoring threads touches no resource and is not
modelled. -/
def cleanup (env : CleanupEnv) (st : CleanupState) : CleanupResult :=
  let s1 : List Action × List String :=
    match st.module_id with
    | some m =>
      if env.unloadFails then ([], ["[!] Error unloading module"])
      else ([Action.unloadModule m], [])
    | none => ([], [])
  let s2 : List Action × List String × Bool :=
    if st.pipe_exists then
      if env.removeFails then ([], ["[!] Error removing pipe"], true)
      else ([Action.removePipe], [], false)
    else ([], [], false)
  let s3 : List Action × List String :=
    if env.pkillFails then ([], ["[!] Error killing scrcpy processes"])
    else ([Action.pkillScrcpy], [])
  { state := { module_id := st.module_id, pipe_exists := s2.2.2, tracked := st.tracked },
    actions := s1.1 ++ s2.1 ++ s3.1 ++ terminateTracked st.tracked,
    log := "[*] Cleaning up..." :: (s1.2 ++ s2.2.1 ++ s3.2) }

/-- Embedding of `signal_handler`: run `cleanup()` and exit with status 0. -/
def signalHandler (env : CleanupEnv) (st : CleanupState) : CleanupResult × Nat :=
  (cleanup env st, 0)

/-! ## Device check (`check_adb_devices`) -/

/-- The serial numbers collected by `check_adb_devices` from the lines after
the header: stripped nonempty lines not starting with `*` whose second
tab-separated field is exactly `device`. -/
def adbDeviceSerials : List String → List String
  | [] => []
  | line :: rest =>
    let l := pyStrip line
    if l = "" then adbDeviceSerials rest
    else if pyStartsWith l "*" then adbDeviceSerials rest
    else
      match pySplit l '\t' with
      | p0 :: p1 :: _ =>
        if p1 = "device" then p0 :: adbDeviceSerials rest
        else adbDeviceSerials rest
      | _ => adbDeviceSerials rest

/-- Embedding of the parsing part of `check_adb_devices`, applied to the
captured stdout of `adb devices`. -/
def check_adb_devices (out : String) : Bool :=
  let lines := pySplit (pyStrip out) '\n'
  !(adbDeviceSerials (lines.drop 1)).isEmpty

/-! ## Camera selection (`select_camera` and the fallback in `main`) -/

/-- What `parse_camera_info` records for one camera id. -/
structure CameraInfo where
  type : String
  default_resolution : String
  fps_range : String
  resolutions : List String
deriving DecidableEq, Repr

/-- The configured default FPS. -/
def DEFAULT_FPS : String := "60"

/-- The common-resolution shortcut list of `select_camera`. -/
def common_resolutions : List String :=
  ["1920x1080", "1280x720", "640x480", "1920x1440", "2560x1440", "3840x2160"]

/-- The camera-id prompt loop: consume user inputs until one (or the default
`"0"`) names a known camera; `none` models running out of input. -/
def selectCameraIdLoop (cameras : List (String × CameraInfo)) :
    List String → Option (String × List String)
  | [] => none
  | i :: rest =>
    let s := pyStrip i
    let sel := if s = "" then "0" else s
    if (cameras.map Prod.fst).contains sel then some (sel, rest)
    else selectCameraIdLoop cameras rest

/-- The resolution prompt loop of `select_camera`. -/
def selectResolutionLoop (resolutions all_available : List String) :
    List String → Option (String × List String)
  | [] => none
  | i :: rest =>
    let ri := pyStrip i
    if ri = "" then
      if resolutions.contains "1920x1080" then some ("1920x1080", rest)
      else
        match resolutions with
        | r0 :: _ => some (r0, rest)
        | [] => none
    else
      match pyToInt ri with
      | some n =>
        if 0 ≤ n - 1 ∧ n - 1 < (all_available.length : Int) then
          some (all_available.getD (n - 1).toNat "", rest)
        else selectResolutionLoop resolutions all_available rest
      | none => selectResolutionLoop resolutions all_available rest

/-- The FPS prompt loop of `select_camera`; an empty input selects
`str(max(fps_options))`, a valid listed value is echoed back verbatim. -/
def selectFpsLoop (fps_options : List Int) :
    List String → Option (String × List String)
  | [] => none
  | i :: rest =>
    let fi := pyStrip i
    if fi = "" then
      match pyMax fps_options with
      | some m => some (toString m, rest)
      | none => none
    else
      match pyToInt fi with
      | some v =>
        if fps_options.contains v then some (fi, rest)
        else selectFpsLoop fps_options rest
      | none => selectFpsLoop fps_options rest

/-- The fps list `[int(x.strip()) for x in fps_range.split(',')]`. -/
def parseFpsOptions (fps_range : String) : Option (List Int) :=
  (pySplit fps_range ',').mapM pyToInt

/-- Embedding of `select_camera`: on an empty camera dictionary return the
fixed fallback without consuming any input; otherwise run the three prompt
loops over the user-input oracle. -/
def select_camera (inputs : List String) (cameras : List (String × CameraInfo)) :
    Option ((String × String × String) × List String) :=
  if cameras.isEmpty then some (("0", "1920x1080", DEFAULT_FPS), inputs)
  else
    match selectCameraIdLoop cameras inputs with
    | none => none
    | some (selId, in1) =>
      match cameras.lookup selId with
      | none => none
      | some info =>
        let resolutions := info.resolutions
        let other_resolutions :=
          resolutions.filter (fun r => !common_resolutions.contains r)
        let all_available :=
          common_resolutions.filter (fun r => resolutions.contains r) ++ other_resolutions
        match selectResolutionLoop resolutions all_available in1 with
        | none => none
        | some (selRes, in2) =>
          match parseFpsOptions info.fps_range with
          | none => none
          | some fps_options =>
            match selectFpsLoop fps_options in2 with
            | none => none
            | some (selFps, in3) => some ((selId, selRes, selFps), in3)

/-- The camera-configuration step of `main`: the same fixed fallback when no
cameras were found, otherwise defer to `select_camera`. -/
def mainSelectCamera (inputs : List String) (cameras : List (String × CameraInfo)) :
    Option ((String × String × String) × List String) :=
  if cameras.isEmpty then some (("0", "1920x1080", DEFAULT_FPS), inputs)
  else select_camera inputs cameras

/-! ## Exit-status policy of `main` -/

/-- How the supervision loop of `main` ends. -/
inductive RunEnd where
  | disconnected
  | allExited
  | interrupted
deriving DecidableEq, Repr

/-- Outcomes of the setup steps and of the run phase of `main`. -/
structure MainEnv where
  adb_ok : Bool
  cameras : Option (List (String × CameraInfo))
  load_v4l2_ok : Bool
  setup_mic_ok : Bool
  video_launch_ok : Bool
  audio_launch_ok : Bool
  run_end : RunEnd

/-- Embedding of the exit paths of `main`: each failed precondition or launch
calls `sys.exit(1)`; every run-phase ending falls through `cleanup()` to a
normal return, hence exit status 0. -/
def mainExitCode (env : MainEnv) : Nat :=
  if !env.adb_ok then 1
  else
    match env.cameras with
    | none => 1
    | some _ =>
      if !env.load_v4l2_ok then 1
      else if !env.setup_mic_ok then 1
      else if !env.video_launch_ok then 1
      else if !env.audio_launch_ok then 1
      else
        match env.run_end with
        | RunEnd.disconnected => 0
        | RunEnd.allExited => 0
        | RunEnd.interrupted => 0

/-! ## Helper lemmas -/

lemma startsWithList_self_append (p rest : List Char) :
    startsWithList p (p ++ rest) = true := by
  induction p with
  | nil => rfl
  | cons c cs ih => simp [startsWithList, ih]

lemma containsList_of_startsWith {pat l : List Char}
    (h : startsWithList pat l = true) : containsList l pat = true := by
  cases l with
  | nil =>
    cases pat with
    | nil => rfl
    | cons c cs => simp [startsWithList] at h
  | cons c cs => simp [containsList, h]

lemma containsList_append_left (a : List Char) {m pat : List Char}
    (h : containsList m pat = true) : containsList (a ++ m) pat = true := by
  induction a with
  | nil => simpa using h
  | cons c cs ih =>
    simp only [List.cons_append, containsList]
    simp [ih]

/-- A string occurs in any concatenation that starts with it. -/
lemma containsStr_here (b c : String) : containsStr (b ++ c) b = true := by
  unfold containsStr
  rw [String.data_append]
  exact containsList_of_startsWith (startsWithList_self_append _ _)

/-- Substring containment is preserved by prepending text. -/
lemma containsStr_there (a : String) {m b : String}
    (h : containsStr m b = true) : containsStr (a ++ m) b = true := by
  unfold containsStr at h ⊢
  rw [String.data_append]
  exact containsList_append_left _ h

lemma startsWithList_extend {pat l : List Char} (a : List Char)
    (h : startsWithList pat l = true) : startsWithList pat (l ++ a) = true := by
  induction pat generalizing l with
  | nil => rfl
  | cons pc pcs ih =>
    cases l with
    | nil => simp [startsWithList] at h
    | cons c cs =>
      simp only [startsWithList, Bool.and_eq_true] at h ⊢
      exact ⟨h.1, ih h.2⟩

lemma containsList_nil (l : List Char) : containsList l [] = true := by
  cases l <;> simp [containsList, startsWithList]

lemma containsList_append_right (a : List Char) {m pat : List Char}
    (h : containsList m pat = true) : containsList (m ++ a) pat = true := by
  induction m with
  | nil =>
    have hp : pat = [] := by
      cases pat with
      | nil => rfl
      | cons c cs => simp [containsList, startsWithList] at h
    subst hp
    exact containsList_nil _
  | cons c cs ih =>
    simp only [containsList, List.cons_append, Bool.or_eq_true] at h ⊢
    rcases h with h | h
    · exact Or.inl (startsWithList_extend a h)
    · exact Or.inr (ih h)

/-- Every string occurs inside itself. -/
lemma containsStr_self (b : String) : containsStr b b = true := by
  unfold containsStr
  have h := startsWithList_self_append b.data []
  rw [List.append_nil] at h
  exact containsList_of_startsWith h

/-- Substring containment is preserved by appending text. -/
lemma containsStr_right (a : String) {m b : String}
    (h : containsStr m b = true) : containsStr (m ++ a) b = true := by
  unfold containsStr at h ⊢
  rw [String.data_append]
  exact containsList_append_right _ h

/-! Branch equations for one step of `readStream`. -/

lemma readStream_ioError (p s e : String) (rest : List StreamEvent) :
    readStream p s (StreamEvent.ioError e :: rest) =
      { output := ["[!] Error monitoring " ++ p ++ " " ++ s ++ ": " ++ e],
        classified := [], disconnected := false } := rfl

lemma readStream_blank (p s l : String) (rest : List StreamEvent)
    (h0 : pyStrip l = "") :
    readStream p s (StreamEvent.line l :: rest) = readStream p s rest := by
  simp [readStream, h0]

lemma readStream_disconnect_warn (p s l : String) (rest : List StreamEvent)
    (h0 : pyStrip l ≠ "")
    (h1 : (containsStr (pyStrip l) "Device disconnected" &&
      containsStr (pyStrip l) "WARN:") = true) :
    readStream p s (StreamEvent.line l :: rest) =
      { output := ["[!] " ++ p ++ ": Device disconnected detected!"],
        classified := [(pyStrip l, Category.disconnect)], disconnected := true } := by
  simp [readStream, h0, h1]

lemma readStream_disconnect_noadb (p s l : String) (rest : List StreamEvent)
    (h0 : pyStrip l ≠ "")
    (h1 : (containsStr (pyStrip l) "Device disconnected" &&
      containsStr (pyStrip l) "WARN:") = false)
    (h2 : containsStr (pyStrip l) "Could not find any ADB device" = true) :
    readStream p s (StreamEvent.line l :: rest) =
      { output := ["[!] " ++ p ++ ": No ADB device found!"],
        classified := [(pyStrip l, Category.disconnect)], disconnected := true } := by
  simp [readStream, h0, h1, h2]

lemma readStream_fatal (p s l : String) (rest : List StreamEvent)
    (h0 : pyStrip l ≠ "")
    (h1 : (containsStr (pyStrip l) "Device disconnected" &&
      containsStr (pyStrip l) "WARN:") = false)
    (h2 : containsStr (pyStrip l) "Could not find any ADB device" = false)
    (h3 : hasFatalKeyword (pyStrip l) = true) :
    readStream p s (StreamEvent.line l :: rest) =
      { output := ("[!] " ++ p ++ " (" ++ s ++ "): " ++ pyStrip l)
          :: (readStream p s rest).output,
        classified := (pyStrip l, Category.fatalError)
          :: (readStream p s rest).classified,
        disconnected := (readStream p s rest).disconnected } := by
  simp [readStream, h0, h1, h2, h3]

lemma readStream_warning (p s l : String) (rest : List StreamEvent)
    (h0 : pyStrip l ≠ "")
    (h1 : (containsStr (pyStrip l) "Device disconnected" &&
      containsStr (pyStrip l) "WARN:") = false)
    (h2 : containsStr (pyStrip l) "Could not find any ADB device" = false)
    (h3 : hasFatalKeyword (pyStrip l) = false)
    (h4 : (containsStr (pyStrip l) "WARN:" &&
      !containsStr (pyStrip l) "Device disconnected") = true) :
    readStream p s (StreamEvent.line l :: rest) =
      { output := ("[W] " ++ p ++ " (" ++ s ++ "): " ++ pyStrip l)
          :: (readStream p s rest).output,
        classified := (pyStrip l, Category.warning)
          :: (readStream p s rest).classified,
        disconnected := (readStream p s rest).disconnected } := by
  simp [readStream, h0, h1, h2, h3, h4]

lemma readStream_info (p s l : String) (rest : List StreamEvent)
    (h0 : pyStrip l ≠ "")
    (h1 : (containsStr (pyStrip l) "Device disconnected" &&
      containsStr (pyStrip l) "WARN:") = false)
    (h2 : containsStr (pyStrip l) "Could not find any ADB device" = false)
    (h3 : hasFatalKeyword (pyStrip l) = false)
    (h4 : (containsStr (pyStrip l) "WARN:" &&
      !containsStr (pyStrip l) "Device disconnected") = false) :
    readStream p s (StreamEvent.line l :: rest) =
      { output := (readStream p s rest).output,
        classified := (pyStrip l, Category.info)
          :: (readStream p s rest).classified,
        disconnected := (readStream p s rest).disconnected } := by
  simp [readStream, h0, h1, h2, h3, h4]

/-- Components of a failed disconnection test. -/
lemma disconnect_false_parts {ls : String} (h : isDisconnectLine ls = false) :
    (containsStr ls "Device disconnected" && containsStr ls "WARN:") = false ∧
    containsStr ls "Could not find any ADB device" = false := by
  cases hA : (containsStr ls "Device disconnected" && containsStr ls "WARN:") <;>
  cases hC : containsStr ls "Could not find any ADB device" <;>
  simp [isDisconnectLine, hA, hC] at h ⊢

/-- Structure of a monitor's classification list: either no line was ever
classified `disconnect` and the flag is unset, or the classification list
ends at its unique `disconnect` entry and the flag is set. -/
lemma readStream_classified_structure (p s : String) (evs : List StreamEvent) :
    ((readStream p s evs).disconnected = false ∧
      ∀ y ∈ (readStream p s evs).classified, y.2 ≠ Category.disconnect) ∨
    (∃ pre x, (readStream p s evs).classified = pre ++ [x] ∧
      x.2 = Category.disconnect ∧ (∀ y ∈ pre, y.2 ≠ Category.disconnect) ∧
      (readStream p s evs).disconnected = true) := by
  induction evs with
  | nil => left; simp [readStream]
  | cons ev rest ih =>
    cases ev with
    | ioError e => left; simp [readStream]
    | line l =>
      by_cases h0 : pyStrip l = ""
      · simpa [readStream, h0] using ih
      · by_cases h1 : (containsStr (pyStrip l) "Device disconnected" &&
            containsStr (pyStrip l) "WARN:") = true
        · right
          refine ⟨[], (pyStrip l, Category.disconnect), ?_, rfl, by simp, ?_⟩ <;>
            simp [readStream, h0, h1]
        · by_cases h2 : containsStr (pyStrip l) "Could not find any ADB device" = true
          · right
            refine ⟨[], (pyStrip l, Category.disconnect), ?_, rfl, by simp, ?_⟩ <;>
              simp [readStream, h0, h1, h2]
          · by_cases h3 : hasFatalKeyword (pyStrip l) = true
            · rcases ih with ⟨hd, hall⟩ | ⟨pre, x, hcl, hx, hpre, hd⟩
              · left
                refine ⟨by simp [readStream, h0, h1, h2, h3, hd], ?_⟩
                intro y hy
                simp only [readStream, h0, h1, h2, h3] at hy
                simp at hy
                rcases hy with rfl | hy
                · simp
                · exact hall y hy
              · right
                refine ⟨(pyStrip l, Category.fatalError) :: pre, x, ?_, hx, ?_, ?_⟩
                · simp [readStream, h0, h1, h2, h3, hcl]
                · intro y hy
                  rcases List.mem_cons.mp hy with rfl | hy
                  · simp
                  · exact hpre y hy
                · simp [readStream, h0, h1, h2, h3, hd]
            · by_cases h4 : (containsStr (pyStrip l) "WARN:" &&
                  !containsStr (pyStrip l) "Device disconnected") = true
              · rcases ih with ⟨hd, hall⟩ | ⟨pre, x, hcl, hx, hpre, hd⟩
                · left
                  refine ⟨by simp [readStream, h0, h1, h2, h3, h4, hd], ?_⟩
                  intro y hy
                  simp only [readStream, h0, h1, h2, h3, h4] at hy
                  simp at hy
                  rcases hy with rfl | hy
                  · simp
                  · exact hall y hy
                · right
                  refine ⟨(pyStrip l, Category.warning) :: pre, x, ?_, hx, ?_, ?_⟩
                  · simp [readStream, h0, h1, h2, h3, h4, hcl]
                  · intro y hy
                    rcases List.mem_cons.mp hy with rfl | hy
                    · simp
                    · exact hpre y hy
                  · simp [readStream, h0, h1, h2, h3, h4, hd]
              · rcases ih with ⟨hd, hall⟩ | ⟨pre, x, hcl, hx, hpre, hd⟩
                · left
                  refine ⟨by simp [readStream, h0, h1, h2, h3, h4, hd], ?_⟩
                  intro y hy
                  simp only [readStream, h0, h1, h2, h3, h4] at hy
                  simp at hy
                  rcases hy with rfl | hy
                  · simp
                  · exact hall y hy
                · right
                  refine ⟨(pyStrip l, Category.info) :: pre, x, ?_, hx, ?_, ?_⟩
                  · simp [readStream, h0, h1, h2, h3, h4, hcl]
                  · intro y hy
                    rcases List.mem_cons.mp hy with rfl | hy
                    · simp
                    · exact hpre y hy
                  · simp [readStream, h0, h1, h2, h3, h4, hd]

/-! ## Claim theorems -/

/-- C3: for every sequence of events fed to one stream monitor, at most one
line is ever classified `disconnect`; when one is, the disconnection flag is
set and the monitor stops immediately, so the `disconnect` entry is the last
classification of the stream and no earlier entry is a `disconnect`. -/
theorem monitor_disconnect_terminal (p s : String) (evs : List StreamEvent)
    (x : String × Category) (hx : x ∈ (readStream p s evs).classified)
    (hd : x.2 = Category.disconnect) :
    (readStream p s evs).disconnected = true ∧
    ∃ pre, (readStream p s evs).classified = pre ++ [x] ∧
      ∀ y ∈ pre, y.2 ≠ Category.disconnect := by
  rcases readStream_classified_structure p s evs with ⟨_, hall⟩ |
    ⟨pre, x0, hcl, _, hpre, hdisc⟩
  · exact absurd hd (hall x hx)
  · have hxx : x = x0 := by
      rcases List.mem_append.mp (hcl ▸ hx) with hmem | hmem
      · exact absurd hd (hpre x hmem)
      · simpa using hmem
    subst hxx
    exact ⟨hdisc, pre, hcl, hpre⟩

theorem monitor_disconnect_terminal_witness :
    (readStream "Video" "stderr"
        [StreamEvent.line "WARN: Device disconnected",
         StreamEvent.line "ERROR: x"]).disconnected = true ∧
    ∃ pre, (readStream "Video" "stderr"
        [StreamEvent.line "WARN: Device disconnected",
         StreamEvent.line "ERROR: x"]).classified
          = pre ++ [("WARN: Device disconnected", Category.disconnect)] ∧
      ∀ y ∈ pre, y.2 ≠ Category.disconnect :=
  monitor_disconnect_terminal "Video" "stderr" _
    ("WARN: Device disconnected", Category.disconnect) (by decide) (by decide)

/-- C5: classification of a nonblank line follows the source's priority
order: a line matching the disconnection pattern is classified `disconnect`;
otherwise a line containing a fatal-error keyword is classified `fatalError`
and surfaced; otherwise a `WARN:` line without the disconnect marker is
classified `warning` and surfaced; every remaining line is classified `info`
and adds nothing to the surfaced output. -/
theorem monitor_line_priority (p s l : String) (rest : List StreamEvent)
    (h : pyStrip l ≠ "") :
    (isDisconnectLine (pyStrip l) = true →
      (readStream p s (StreamEvent.line l :: rest)).classified
          = [(pyStrip l, Category.disconnect)] ∧
      (readStream p s (StreamEvent.line l :: rest)).disconnected = true) ∧
    (isDisconnectLine (pyStrip l) = false → hasFatalKeyword (pyStrip l) = true →
      (readStream p s (StreamEvent.line l :: rest)).classified
          = (pyStrip l, Category.fatalError) :: (readStream p s rest).classified ∧
      (readStream p s (StreamEvent.line l :: rest)).output
          = ("[!] " ++ p ++ " (" ++ s ++ "): " ++ pyStrip l)
              :: (readStream p s rest).output) ∧
    (isDisconnectLine (pyStrip l) = false → hasFatalKeyword (pyStrip l) = false →
      isWarningLine (pyStrip l) = true →
      (readStream p s (StreamEvent.line l :: rest)).classified
          = (pyStrip l, Category.warning) :: (readStream p s rest).classified ∧
      (readStream p s (StreamEvent.line l :: rest)).output
          = ("[W] " ++ p ++ " (" ++ s ++ "): " ++ pyStrip l)
              :: (readStream p s rest).output) ∧
    (isDisconnectLine (pyStrip l) = false → hasFatalKeyword (pyStrip l) = false →
      isWarningLine (pyStrip l) = false →
      (readStream p s (StreamEvent.line l :: rest)).classified
          = (pyStrip l, Category.info) :: (readStream p s rest).classified ∧
      (readStream p s (StreamEvent.line l :: rest)).output
          = (readStream p s rest).output) := by
  refine ⟨?_, ?_, ?_, ?_⟩ <;> intro hdis <;>
    cases hA : containsStr (pyStrip l) "Device disconnected" <;>
    cases hB : containsStr (pyStrip l) "WARN:" <;>
    cases hC : containsStr (pyStrip l) "Could not find any ADB device" <;>
    simp [isDisconnectLine, hA, hB, hC] at hdis ⊢ <;>
    (try intro hfat) <;> (try intro hwarn) <;>
    simp_all [readStream, isWarningLine, h, hA, hB, hC]

theorem monitor_line_priority_witness :
    pyStrip "ERROR: boom" ≠ "" ∧
    (readStream "Video" "stdout" [StreamEvent.line "ERROR: boom"]).classified
        = [("ERROR: boom", Category.fatalError)] ∧
    (readStream "Video" "stdout" [StreamEvent.line "ERROR: boom"]).output
        = ["[!] Video (stdout): ERROR: boom"] := by
  refine ⟨by decide, ?_⟩
  have h := (monitor_line_priority "Video" "stdout" "ERROR: boom" [] (by decide)).2.1
    (by decide) (by decide)
  constructor
  · rw [h.1]; decide
  · rw [h.2]; decide

/-- C7: an I/O error raised while reading a stream terminates only that
monitor: whatever nonblank, non-disconnecting lines preceded it are
classified as usual, the error is logged as the final output line, the
remainder of the stream is never read, and the disconnection flag is left
unset. -/
theorem monitor_io_error_local (p s e : String) (pre rest : List StreamEvent)
    (hpre : ∀ ev ∈ pre, ∃ l, ev = StreamEvent.line l ∧
      isDisconnectLine (pyStrip l) = false) :
    readStream p s (pre ++ StreamEvent.ioError e :: rest) =
      { output := (readStream p s pre).output ++
          ["[!] Error monitoring " ++ p ++ " " ++ s ++ ": " ++ e],
        classified := (readStream p s pre).classified,
        disconnected := false } := by
  induction pre with
  | nil => simp [readStream]
  | cons ev pres ih =>
    obtain ⟨l, rfl, hdisc⟩ := hpre ev (by simp)
    have hpres : ∀ ev ∈ pres, ∃ l, ev = StreamEvent.line l ∧
        isDisconnectLine (pyStrip l) = false :=
      fun ev hv => hpre ev (by simp [hv])
    by_cases h0 : pyStrip l = ""
    · simpa [readStream, h0] using ih hpres
    · cases hA : containsStr (pyStrip l) "Device disconnected" <;>
      cases hB : containsStr (pyStrip l) "WARN:" <;>
      cases hC : containsStr (pyStrip l) "Could not find any ADB device" <;>
      simp [isDisconnectLine, hA, hB, hC] at hdisc ⊢ <;>
      by_cases h3 : hasFatalKeyword (pyStrip l) = true <;>
      simp [readStream, h0, hA, hB, hC, h3, ih hpres]

theorem monitor_io_error_local_witness :
    (∀ ev ∈ [StreamEvent.line "hello"], ∃ l, ev = StreamEvent.line l ∧
      isDisconnectLine (pyStrip l) = false) ∧
    readStream "Audio" "stderr"
        ([StreamEvent.line "hello"] ++ StreamEvent.ioError "bad fd" ::
          [StreamEvent.line "WARN: Device disconnected"]) =
      { output := (readStream "Audio" "stderr" [StreamEvent.line "hello"]).output ++
          ["[!] Error monitoring Audio stderr: bad fd"],
        classified := (readStream "Audio" "stderr" [StreamEvent.line "hello"]).classified,
        disconnected := false } := by
  have hpre : ∀ ev ∈ [StreamEvent.line "hello"], ∃ l, ev = StreamEvent.line l ∧
      isDisconnectLine (pyStrip l) = false := by
    intro ev hv
    simp only [List.mem_singleton] at hv
    exact ⟨"hello", hv, by decide⟩
  exact ⟨hpre, monitor_io_error_local "Audio" "stderr" "bad fd" _ _ hpre⟩

/-- C8, counterexample: a surfaced disconnect diagnostic is not tagged with
the stream kind.  On the stderr monitor of the Video process, the line
`WARN: Device disconnected` is surfaced as
`[!] Video: Device disconnected detected!`, which does not mention
`stderr`. -/
theorem surfaced_tagging_counterexample :
    ¬ ∀ msg ∈ (readStream "Video" "stderr"
        [StreamEvent.line "WARN: Device disconnected"]).output,
      containsStr msg "Video" = true ∧ containsStr msg "stderr" = true := by
  decide

/-- C8, amended: every surfaced diagnostic line is tagged with the source
process name, and the surfaced `fatal-error` and `warning` lines are also
tagged with the stream kind; surfaced `disconnect` lines carry only the
process name. -/
theorem surfaced_output_tagging (p s : String) :
    (∀ evs, ∀ msg ∈ (readStream p s evs).output, containsStr msg p = true) ∧
    (∀ l, isDisconnectLine (pyStrip l) = false →
      (hasFatalKeyword (pyStrip l) || isWarningLine (pyStrip l)) = true →
      ∀ msg ∈ (readStream p s [StreamEvent.line l]).output,
        containsStr msg s = true) := by
  constructor
  · intro evs
    induction evs with
    | nil => simp [readStream]
    | cons ev rest ih =>
      cases ev with
      | ioError e =>
        intro msg hmsg
        rw [readStream_ioError] at hmsg
        obtain rfl := List.mem_singleton.mp hmsg
        exact containsStr_right e (containsStr_right ": " (containsStr_right s
          (containsStr_right " " (containsStr_there "[!] Error monitoring "
            (containsStr_self p)))))
      | line l =>
        by_cases h0 : pyStrip l = ""
        · intro msg hmsg
          rw [readStream_blank p s l rest h0] at hmsg
          exact ih msg hmsg
        · cases h1 : (containsStr (pyStrip l) "Device disconnected" &&
              containsStr (pyStrip l) "WARN:") with
          | true =>
            intro msg hmsg
            rw [readStream_disconnect_warn p s l rest h0 h1] at hmsg
            obtain rfl := List.mem_singleton.mp hmsg
            exact containsStr_right ": Device disconnected detected!"
              (containsStr_there "[!] " (containsStr_self p))
          | false =>
            cases h2 : containsStr (pyStrip l) "Could not find any ADB device" with
            | true =>
              intro msg hmsg
              rw [readStream_disconnect_noadb p s l rest h0 h1 h2] at hmsg
              obtain rfl := List.mem_singleton.mp hmsg
              exact containsStr_right ": No ADB device found!"
                (containsStr_there "[!] " (containsStr_self p))
            | false =>
              cases h3 : hasFatalKeyword (pyStrip l) with
              | true =>
                intro msg hmsg
                rw [readStream_fatal p s l rest h0 h1 h2 h3] at hmsg
                rcases List.mem_cons.mp hmsg with rfl | hmsg
                · exact containsStr_right (pyStrip l) (containsStr_right "): "
                    (containsStr_right s (containsStr_right " ("
                      (containsStr_there "[!] " (containsStr_self p)))))
                · exact ih msg hmsg
              | false =>
                cases h4 : (containsStr (pyStrip l) "WARN:" &&
                    !containsStr (pyStrip l) "Device disconnected") with
                | true =>
                  intro msg hmsg
                  rw [readStream_warning p s l rest h0 h1 h2 h3 h4] at hmsg
                  rcases List.mem_cons.mp hmsg with rfl | hmsg
                  · exact containsStr_right (pyStrip l) (containsStr_right "): "
                      (containsStr_right s (containsStr_right " ("
                        (containsStr_there "[W] " (containsStr_self p)))))
                  · exact ih msg hmsg
                | false =>
                  intro msg hmsg
                  rw [readStream_info p s l rest h0 h1 h2 h3 h4] at hmsg
                  exact ih msg hmsg
  · intro l hdis hfw
    obtain ⟨h1, h2⟩ := disconnect_false_parts hdis
    by_cases h0 : pyStrip l = ""
    · intro msg hmsg
      rw [readStream_blank p s l [] h0] at hmsg
      simp [readStream] at hmsg
    · cases h3 : hasFatalKeyword (pyStrip l) with
      | true =>
        intro msg hmsg
        rw [readStream_fatal p s l [] h0 h1 h2 h3] at hmsg
        rcases List.mem_cons.mp hmsg with rfl | hmsg
        · exact containsStr_right (pyStrip l) (containsStr_right "): "
            (containsStr_there ("[!] " ++ p ++ " (") (containsStr_self s)))
        · simp [readStream] at hmsg
      | false =>
        have h4 : isWarningLine (pyStrip l) = true := by simpa [h3] using hfw
        have h4' : (containsStr (pyStrip l) "WARN:" &&
            !containsStr (pyStrip l) "Device disconnected") = true := h4
        intro msg hmsg
        rw [readStream_warning p s l [] h0 h1 h2 h3 h4'] at hmsg
        rcases List.mem_cons.mp hmsg with rfl | hmsg
        · exact containsStr_right (pyStrip l) (containsStr_right "): "
            (containsStr_there ("[W] " ++ p ++ " (") (containsStr_self s)))
        · simp [readStream] at hmsg

theorem surfaced_output_tagging_witness :
    containsStr "[W] Video (stdout): WARN: low battery" "Video" = true ∧
    containsStr "[W] Video (stdout): WARN: low battery" "stdout" = true :=
  ⟨(surfaced_output_tagging "Video" "stdout").1
      [StreamEvent.line "WARN: low battery"] _ (by decide),
   (surfaced_output_tagging "Video" "stdout").2
      "WARN: low battery" (by decide) (by decide) _ (by decide)⟩

/-! ## Cleanup lemmas and claims -/

lemma terminate_mem {ps : List Proc} {p : Proc} (hp : p ∈ ps) :
    Action.terminate p ∈ terminateTracked ps := by
  induction ps with
  | nil => cases hp
  | cons q qs ih =>
    rcases List.mem_cons.mp hp with rfl | hp
    · cases hq : p.exitsWithinGrace <;> simp [terminateTracked, hq]
    · cases hq : q.exitsWithinGrace <;> simp [terminateTracked, hq, ih hp]

lemma removePipe_not_mem_terminateTracked (ps : List Proc) :
    Action.removePipe ∉ terminateTracked ps := by
  induction ps with
  | nil => simp [terminateTracked]
  | cons q qs ih => cases hq : q.exitsWithinGrace <;> simp [terminateTracked, hq, ih]

lemma terminateTracked_kill_count (ps : List Proc) :
    ((terminateTracked ps).filter isKillAction).length
      = (ps.filter (fun p => !p.exitsWithinGrace)).length := by
  induction ps with
  | nil => rfl
  | cons q qs ih =>
    cases hq : q.exitsWithinGrace <;>
      simp [terminateTracked, hq, List.filter, isKillAction, ih]

/-- The state left by one `cleanup()` run: the module id and the tracked list
are untouched, and the pipe is gone unless its removal failed. -/
lemma cleanup_state_eq (env : CleanupEnv) (st : CleanupState) :
    (cleanup env st).state =
      { module_id := st.module_id,
        pipe_exists := st.pipe_exists && env.removeFails,
        tracked := st.tracked } := by
  rcases st with ⟨mid, pe, tr⟩
  cases pe <;> cases hr : env.removeFails <;> simp [cleanup, hr]

/-- C6: every combination of step failures still attempts all four teardown
steps.  Whenever a step can succeed it performs its action no matter which
other steps fail, a failing step leaves its own log line, and the
tracked-process terminations are always issued. -/
theorem cleanup_best_effort (env : CleanupEnv) (st : CleanupState) :
    (env.unloadFails = false → ∀ m, st.module_id = some m →
      Action.unloadModule m ∈ (cleanup env st).actions) ∧
    (env.unloadFails = true → st.module_id.isSome = true →
      "[!] Error unloading module" ∈ (cleanup env st).log) ∧
    (env.removeFails = false → st.pipe_exists = true →
      Action.removePipe ∈ (cleanup env st).actions) ∧
    (env.removeFails = true → st.pipe_exists = true →
      "[!] Error removing pipe" ∈ (cleanup env st).log) ∧
    (env.pkillFails = false → Action.pkillScrcpy ∈ (cleanup env st).actions) ∧
    (env.pkillFails = true → "[!] Error killing scrcpy processes" ∈ (cleanup env st).log) ∧
    (∀ p ∈ st.tracked, Action.terminate p ∈ (cleanup env st).actions) := by
  rcases env with ⟨uf, rf, kf⟩
  rcases st with ⟨mid, pe, tr⟩
  refine ⟨?_, ?_, ?_, ?_, ?_, ?_, ?_⟩ <;>
    cases mid <;> cases pe <;> cases uf <;> cases rf <;> cases kf <;>
    simp [cleanup] <;>
    (intro p hp; simp [terminate_mem hp])

theorem cleanup_best_effort_witness :
    "[!] Error unloading module" ∈
      (cleanup ⟨true, true, true⟩ ⟨some "9", true, [⟨3, false⟩]⟩).log ∧
    "[!] Error removing pipe" ∈
      (cleanup ⟨true, true, true⟩ ⟨some "9", true, [⟨3, false⟩]⟩).log ∧
    "[!] Error killing scrcpy processes" ∈
      (cleanup ⟨true, true, true⟩ ⟨some "9", true, [⟨3, false⟩]⟩).log ∧
    Action.terminate ⟨3, false⟩ ∈
      (cleanup ⟨true, true, true⟩ ⟨some "9", true, [⟨3, false⟩]⟩).actions :=
  ⟨(cleanup_best_effort ⟨true, true, true⟩ ⟨some "9", true, [⟨3, false⟩]⟩).2.1 rfl rfl,
   (cleanup_best_effort ⟨true, true, true⟩ ⟨some "9", true, [⟨3, false⟩]⟩).2.2.2.1 rfl rfl,
   (cleanup_best_effort ⟨true, true, true⟩ ⟨some "9", true, [⟨3, false⟩]⟩).2.2.2.2.2.1 rfl,
   (cleanup_best_effort ⟨true, true, true⟩ ⟨some "9", true, [⟨3, false⟩]⟩).2.2.2.2.2.2
     ⟨3, false⟩ (by simp)⟩

/-- C1, counterexample: `cleanup()` has no already-ran guard.  Starting from
a state with a recorded module id, an existing pipe and one tracked process,
a second sequential call re-performs the module unload, the pattern kill and
the tracked-process termination; its action list is not empty, so the second
call is not a no-op. -/
theorem cleanup_second_call_counterexample :
    (cleanup ⟨false, false, false⟩
        ((cleanup ⟨false, false, false⟩ ⟨some "42", true, [⟨1, false⟩]⟩).state)).actions
      = [Action.unloadModule "42", Action.pkillScrcpy,
         Action.terminate ⟨1, false⟩, Action.kill ⟨1, false⟩] ∧
    (cleanup ⟨false, false, false⟩
        ((cleanup ⟨false, false, false⟩ ⟨some "42", true, [⟨1, false⟩]⟩).state)).actions
      ≠ [] := by
  constructor <;> decide

/-- C1, amended: a second sequential call to `cleanup()` is not a no-op: it
re-runs the module unload (the module id is never cleared), the pattern kill
and the termination of every tracked process (the tracked list is never
emptied); only the pipe-removal step is skipped, because the first call
removed the pipe (when removal did not fail). -/
theorem cleanup_second_call_reruns_steps (env : CleanupEnv) (st : CleanupState) :
    (env.pkillFails = false →
      Action.pkillScrcpy ∈ (cleanup env (cleanup env st).state).actions) ∧
    (env.unloadFails = false → ∀ m, st.module_id = some m →
      Action.unloadModule m ∈ (cleanup env (cleanup env st).state).actions) ∧
    (∀ p ∈ st.tracked,
      Action.terminate p ∈ (cleanup env (cleanup env st).state).actions) ∧
    (env.removeFails = false →
      Action.removePipe ∉ (cleanup env (cleanup env st).state).actions) := by
  rw [cleanup_state_eq]
  rcases env with ⟨uf, rf, kf⟩
  rcases st with ⟨mid, pe, tr⟩
  refine ⟨?_, ?_, ?_, ?_⟩ <;>
    cases mid <;> cases pe <;> cases uf <;> cases rf <;> cases kf <;>
    simp [cleanup] <;>
    first
    | (intro p hp; simp [terminate_mem hp])
    | simp [removePipe_not_mem_terminateTracked]

theorem cleanup_second_call_reruns_steps_witness :
    Action.pkillScrcpy ∈ (cleanup ⟨false, false, false⟩
        ((cleanup ⟨false, false, false⟩ ⟨some "7", true, [⟨2, true⟩]⟩).state)).actions ∧
    Action.unloadModule "7" ∈ (cleanup ⟨false, false, false⟩
        ((cleanup ⟨false, false, false⟩ ⟨some "7", true, [⟨2, true⟩]⟩).state)).actions ∧
    Action.terminate ⟨2, true⟩ ∈ (cleanup ⟨false, false, false⟩
        ((cleanup ⟨false, false, false⟩ ⟨some "7", true, [⟨2, true⟩]⟩).state)).actions ∧
    Action.removePipe ∉ (cleanup ⟨false, false, false⟩
        ((cleanup ⟨false, false, false⟩ ⟨some "7", true, [⟨2, true⟩]⟩).state)).actions :=
  ⟨(cleanup_second_call_reruns_steps ⟨false, false, false⟩
      ⟨some "7", true, [⟨2, true⟩]⟩).1 rfl,
   (cleanup_second_call_reruns_steps ⟨false, false, false⟩
      ⟨some "7", true, [⟨2, true⟩]⟩).2.1 rfl "7" rfl,
   (cleanup_second_call_reruns_steps ⟨false, false, false⟩
      ⟨some "7", true, [⟨2, true⟩]⟩).2.2.1 ⟨2, true⟩ (by simp),
   (cleanup_second_call_reruns_steps ⟨false, false, false⟩
      ⟨some "7", true, [⟨2, true⟩]⟩).2.2.2 rfl⟩

/-- C2, counterexample: the terminate-all step does not empty the registry.
After `cleanup()` on a state tracking one already-exited process, the
tracked list still holds that process instead of being empty. -/
theorem terminate_all_registry_counterexample :
    (cleanup ⟨false, false, false⟩ ⟨none, false, [⟨1, true⟩]⟩).state.tracked
      = [⟨1, true⟩] ∧
    (cleanup ⟨false, false, false⟩ ⟨none, false, [⟨1, true⟩]⟩).state.tracked
      ≠ [] := by
  constructor <;> decide

/-- C2, amended: the terminate-all step of `cleanup()` sends a graceful
termination request to every tracked process, issues exactly one force-kill
per process that does not exit within the grace period (an already-exited
process counts as exiting within it and raises no error), and leaves the
tracked-process list unchanged — it is never emptied. -/
theorem terminate_all_behavior (env : CleanupEnv) (st : CleanupState) :
    (∀ p ∈ st.tracked, Action.terminate p ∈ (cleanup env st).actions) ∧
    ((cleanup env st).actions.filter isKillAction).length
      = (st.tracked.filter (fun p => !p.exitsWithinGrace)).length ∧
    (cleanup env st).state.tracked = st.tracked := by
  refine ⟨fun p hp => ?_, ?_, ?_⟩
  · rcases env with ⟨uf, rf, kf⟩
    rcases st with ⟨mid, pe, tr⟩
    cases mid <;> cases pe <;> cases uf <;> cases rf <;> cases kf <;>
      simp [cleanup] <;> simp [terminate_mem hp]
  · rcases env with ⟨uf, rf, kf⟩
    rcases st with ⟨mid, pe, tr⟩
    cases mid <;> cases pe <;> cases uf <;> cases rf <;> cases kf <;>
      simp [cleanup, List.filter_append, isKillAction, terminateTracked_kill_count]
  · rw [cleanup_state_eq]

theorem terminate_all_behavior_witness :
    Action.terminate ⟨1, true⟩ ∈
      (cleanup ⟨false, false, false⟩ ⟨none, false, [⟨1, true⟩, ⟨2, false⟩]⟩).actions ∧
    ((cleanup ⟨false, false, false⟩
        ⟨none, false, [⟨1, true⟩, ⟨2, false⟩]⟩).actions.filter isKillAction).length
      = (([⟨1, true⟩, ⟨2, false⟩] : List Proc).filter
          (fun p => !p.exitsWithinGrace)).length ∧
    (cleanup ⟨false, false, false⟩
        ⟨none, false, [⟨1, true⟩, ⟨2, false⟩]⟩).state.tracked
      = [⟨1, true⟩, ⟨2, false⟩] :=
  ⟨(terminate_all_behavior ⟨false, false, false⟩
      ⟨none, false, [⟨1, true⟩, ⟨2, false⟩]⟩).1 ⟨1, true⟩ (by simp),
   (terminate_all_behavior ⟨false, false, false⟩
      ⟨none, false, [⟨1, true⟩, ⟨2, false⟩]⟩).2.1,
   (terminate_all_behavior ⟨false, false, false⟩
      ⟨none, false, [⟨1, true⟩, ⟨2, false⟩]⟩).2.2⟩

/-! ## Exit status, device check and camera fallback claims -/

/-- C4: the overall exit status is non-zero exactly when a startup
precondition fails (no device reachable, no camera information, loopback or
virtual-microphone setup failure) or a capture process fails to launch;
every run-phase ending — disconnection, unexpected process exit, operator
interrupt — and the interrupt handler itself exit with status 0. -/
theorem exit_code_policy (env : MainEnv) :
    (mainExitCode env ≠ 0 ↔
      (env.adb_ok = false ∨ env.cameras = none ∨ env.load_v4l2_ok = false ∨
       env.setup_mic_ok = false ∨ env.video_launch_ok = false ∨
       env.audio_launch_ok = false)) ∧
    (∀ cenv cst, (signalHandler cenv cst).2 = 0) := by
  constructor
  · rcases env with ⟨a, c, lv, sm, v, au, re⟩
    cases a <;> cases c <;> cases lv <;> cases sm <;> cases v <;> cases au <;>
      cases re <;> simp [mainExitCode]
  · intro cenv cst
    rfl

theorem exit_code_policy_witness :
    mainExitCode ⟨false, none, true, true, true, true, RunEnd.interrupted⟩ ≠ 0 :=
  (exit_code_policy ⟨false, none, true, true, true, true, RunEnd.interrupted⟩).1.mpr
    (Or.inl rfl)

lemma adbDeviceSerials_ne_nil_iff (lines : List String) :
    (adbDeviceSerials lines).isEmpty = false ↔
      ∃ line ∈ lines, pyStartsWith (pyStrip line) "*" = false ∧
        ∃ serial others, pySplit (pyStrip line) '\t' = serial :: "device" :: others := by
  induction lines with
  | nil => simp [adbDeviceSerials]
  | cons line rest ih =>
    simp only [List.mem_cons, exists_eq_or_imp]
    by_cases hP : pyStartsWith (pyStrip line) "*" = false ∧
        ∃ serial others, pySplit (pyStrip line) '\t' = serial :: "device" :: others
    · obtain ⟨hst, serial, others, hsp⟩ := hP
      have h1 : pyStrip line ≠ "" := by
        intro h1
        rw [h1] at hsp
        simp [pySplit, splitChAux] at hsp
      have hstep : adbDeviceSerials (line :: rest)
          = serial :: adbDeviceSerials rest := by
        simp [adbDeviceSerials, h1, hst, hsp]
      rw [hstep]
      exact iff_of_true rfl (Or.inl ⟨hst, serial, others, hsp⟩)
    · have hstep : adbDeviceSerials (line :: rest) = adbDeviceSerials rest := by
        by_cases h1 : pyStrip line = ""
        · simp [adbDeviceSerials, h1]
        · cases hst : pyStartsWith (pyStrip line) "*" with
          | true => simp [adbDeviceSerials, h1, hst]
          | false =>
            rcases hsp : pySplit (pyStrip line) '\t' with _ | ⟨p0, _ | ⟨p1, others⟩⟩
            · simp [adbDeviceSerials, h1, hst, hsp]
            · simp [adbDeviceSerials, h1, hst, hsp]
            · by_cases h4 : p1 = "device"
              · subst h4
                exact absurd ⟨hst, p0, others, hsp⟩ hP
              · simp [adbDeviceSerials, h1, hst, hsp, h4]
      rw [hstep, ih]
      simp [hP]

/-- C9: `check_adb_devices` reports a device exactly when some line after the
first header line of the captured output — stripped, and not starting with
`*` — splits on a tab into at least two fields whose second field is exactly
`device`; a line reporting any other state (such as `unauthorized` or
`offline`) never makes it return true. -/
theorem check_adb_devices_iff (out : String) :
    check_adb_devices out = true ↔
      ∃ line ∈ (pySplit (pyStrip out) '\n').drop 1,
        pyStartsWith (pyStrip line) "*" = false ∧
        ∃ serial others, pySplit (pyStrip line) '\t' = serial :: "device" :: others := by
  have h := adbDeviceSerials_ne_nil_iff ((pySplit (pyStrip out) '\n').drop 1)
  have hdef : check_adb_devices out
      = !(adbDeviceSerials ((pySplit (pyStrip out) '\n').drop 1)).isEmpty := rfl
  rw [hdef]
  cases he : (adbDeviceSerials ((pySplit (pyStrip out) '\n').drop 1)).isEmpty
  · exact iff_of_true rfl (h.mp he)
  · refine iff_of_false (by decide) (fun hx => ?_)
    have hf := h.mpr hx
    rw [he] at hf
    exact Bool.noConfusion hf

theorem check_adb_devices_iff_witness :
    check_adb_devices "List of devices attached\nabc123\tdevice" = true :=
  (check_adb_devices_iff "List of devices attached\nabc123\tdevice").mpr
    ⟨"abc123\tdevice", by decide, by decide, "abc123", [], by decide⟩

/-- C10: on an empty camera dictionary, `select_camera` returns the fixed
fallback configuration — camera id `0`, resolution `1920x1080`, the default
FPS `60` — without consuming any user input (the input oracle is returned
untouched), and `main` installs exactly the same fallback when no cameras
were found. -/
theorem select_camera_empty_fallback (inputs : List String) :
    select_camera inputs [] = some (("0", "1920x1080", DEFAULT_FPS), inputs) ∧
    mainSelectCamera inputs [] = some (("0", "1920x1080", DEFAULT_FPS), inputs) ∧
    DEFAULT_FPS = "60" :=
  ⟨rfl, rfl, rfl⟩

end Adbcam
